import Mathlib

/-!
Verification of the go-tcp-proxy repository: a shallow embedding of the
AMQP frame codec (amqphelper package), the Ack-to-Nack rewriter, the
relay-loop bodies of Proxy.pipe and AMQPProxy.pipe, and the single-fire
failure latch of Proxy.err / AMQPProxy.err, together with theorems that
settle the specification claims.

Bytes are modelled as Nat values below 256; an io.Reader is a List Nat
that parsing functions consume from the front, returning the unread
remainder.  Fallible operations return Except String.
-/

namespace GoTcpProxy

/-- Big-endian interpretation of a byte list, as read by encoding/binary
BigEndian (Uint16, Uint32, Uint64 all fold this way). -/
def beNat (bs : List Nat) : Nat :=
  bs.foldl (fun a b => a * 256 + b) 0

/-- The 2-byte big-endian encoding written by binary.Write for a uint16. -/
def u16be (n : Nat) : List Nat :=
  [n / 2 ^ 8 % 256, n % 256]

/-- The 8-byte big-endian encoding written by binary.Write for a uint64. -/
def u64be (n : Nat) : List Nat :=
  [n / 2 ^ 56 % 256, n / 2 ^ 48 % 256, n / 2 ^ 40 % 256, n / 2 ^ 32 % 256,
   n / 2 ^ 24 % 256, n / 2 ^ 16 % 256, n / 2 ^ 8 % 256, n % 256]

/-- io.ReadFull of k bytes from a list source: on success the k bytes and
the remainder; a short source yields an EOF error, having drained the
source (io.ReadFull consumes everything available before failing). -/
def readN (k : Nat) (l : List Nat) : Except String (List Nat) × List Nat :=
  if k ≤ l.length then (.ok (l.take k), l.drop k) else (.error "EOF", [])

/-- Read a single byte (the 1-byte io.ReadFull and binary.Read byte cases). -/
def readByte (l : List Nat) : Except String Nat × List Nat :=
  match l with
  | [] => (.error "EOF", [])
  | b :: r => (.ok b, r)

/-- BasicAck message (class 60, method 80): DeliveryTag uint64, Multiple bool. -/
structure BasicAck where
  DeliveryTag : Nat
  Multiple : Bool
deriving DecidableEq

/-- BasicNack message (class 60, method 120): DeliveryTag uint64,
Multiple bool, Requeue bool. -/
structure BasicNack where
  DeliveryTag : Nat
  Multiple : Bool
  Requeue : Bool
deriving DecidableEq

/-- BasicAck.write: 8-byte big-endian delivery tag, then one flags byte
with bit 0 set from Multiple. -/
def BasicAck.write (msg : BasicAck) : List Nat :=
  u64be msg.DeliveryTag ++ [if msg.Multiple then 1 <<< 0 else 0]

/-- BasicAck.read: binary.Read of the uint64 tag, then the flags byte;
Multiple is bits AND 1 greater than 0. -/
def BasicAck.readR (l : List Nat) : Except String BasicAck × List Nat :=
  match readN 8 l with
  | (.error e, r) => (.error e, r)
  | (.ok tagBytes, r1) =>
    match readByte r1 with
    | (.error e, r) => (.error e, r)
    | (.ok bits, r2) =>
      (.ok { DeliveryTag := beNat tagBytes,
             Multiple := decide (0 < bits &&& (1 <<< 0)) }, r2)

/-- BasicNack.write: 8-byte big-endian delivery tag, then one flags byte
with bit 0 from Multiple and bit 1 from Requeue. -/
def BasicNack.write (msg : BasicNack) : List Nat :=
  u64be msg.DeliveryTag ++
    [(if msg.Multiple then 1 <<< 0 else 0) ||| (if msg.Requeue then 1 <<< 1 else 0)]

/-- BasicNack.read: tag, then flags byte; Multiple from bit 0, Requeue
from bit 1. -/
def BasicNack.readR (l : List Nat) : Except String BasicNack × List Nat :=
  match readN 8 l with
  | (.error e, r) => (.error e, r)
  | (.ok tagBytes, r1) =>
    match readByte r1 with
    | (.error e, r) => (.error e, r)
    | (.ok bits, r2) =>
      (.ok { DeliveryTag := beNat tagBytes,
             Multiple := decide (0 < bits &&& (1 <<< 0)),
             Requeue := decide (0 < bits &&& (1 <<< 1)) }, r2)

/-- The closed catalog of message implementors in the amqphelper package
(the Go message interface has exactly these two concrete types). -/
inductive message where
  | basicAck : BasicAck → message
  | basicNack : BasicNack → message
deriving DecidableEq

/-- The id() method of each message: its (classId, methodId) pair. -/
def message.id : message → Nat × Nat
  | .basicAck _ => (60, 80)
  | .basicNack _ => (60, 120)

/-- Field-level write dispatched through the message interface. -/
def message.writeBytes : message → List Nat
  | .basicAck m => BasicAck.write m
  | .basicNack m => BasicNack.write m

/-- methodFrame: ChannelId, ClassId, MethodId and the Method payload; the
Method pointer may be nil in Go, hence Option. -/
structure methodFrame where
  ChannelId : Nat
  ClassId : Nat
  MethodId : Nat
  Method : Option message
deriving DecidableEq

/-- FrameReader.parseMethodFrame: reads the big-endian class id and method
id, then dispatches on them; only class 60 / method 80 (BasicAck) is in
the catalog, every other pair is a decode error.  The size argument is
received from ReadFrame and never used, exactly as in the source. -/
def parseMethodFrameR (channel size : Nat) (l : List Nat) :
    Except String methodFrame × List Nat :=
  match readN 2 l with
  | (.error e, r) => (.error e, r)
  | (.ok classBytes, r1) =>
    match readN 2 r1 with
    | (.error e, r) => (.error e, r)
    | (.ok methodBytes, r2) =>
      let classId := beNat classBytes
      let methodId := beNat methodBytes
      match classId with
      | 60 =>
        match methodId with
        | 80 =>
          match BasicAck.readR r2 with
          | (.error e, r) => (.error e, r)
          | (.ok m, r3) =>
            (.ok { ChannelId := channel, ClassId := classId,
                   MethodId := methodId, Method := some (.basicAck m) }, r3)
        | _ =>
          (.error ("bad method frame, unknown method " ++ toString methodId ++
                   " for class " ++ toString classId), r2)
      | _ =>
        (.error ("bad method frame, unknown class " ++ toString classId), r2)

/-- FrameReader.ReadFrame: 7-byte header (type, big-endian channel,
big-endian size), dispatch on the type byte (method frames parsed, header,
body and heartbeat frames rejected before the trailer is read, anything
else unparseable), then the 1-byte trailer which must equal frameEnd 206.
Returns the parsed frame together with the unread remainder of the
source. -/
def ReadFrameR (l : List Nat) : Except String methodFrame × List Nat :=
  match readN 7 l with
  | (.error e, r) => (.error e, r)
  | (.ok scratch, r1) =>
    let typ := scratch.getD 0 0
    let channel := (scratch.getD 1 0) * 256 + scratch.getD 2 0
    let size := ((scratch.getD 3 0) * 256 + scratch.getD 4 0) * 256 * 256 +
                (scratch.getD 5 0) * 256 + scratch.getD 6 0
    match typ with
    | 1 =>
      match parseMethodFrameR channel size r1 with
      | (.error e, r) => (.error e, r)
      | (.ok mf, r2) =>
        match readByte r2 with
        | (.error e, r) => (.error e, r)
        | (.ok endByte, r3) =>
          if endByte = 206 then (.ok mf, r3) else (.error "frameEnd fail", r3)
    | 2 => (.error "frameHeader, ignore", r1)
    | 3 => (.error "frameBody, ignore", r1)
    | 8 => (.error "frameHeartbeat, ignore", r1)
    | _ => (.error "frame could not be parsed", r1)

/-- FrameReader.UpdateMethodAckToNack: when the held frame is a method
frame whose Method is a BasicAck, set MethodId to 120 and replace the
Method with a BasicNack carrying the same DeliveryTag and Multiple flag
(Requeue keeps the Go zero value false); otherwise leave the frame
untouched.  The random sub-100ms sleep before the mutation affects timing
only, never the resulting state, so it has no counterpart here. -/
def UpdateMethodAckToNack (mf : methodFrame) : methodFrame :=
  match mf.Method with
  | some (.basicAck m) =>
    { mf with MethodId := 120,
              Method := some (.basicNack
                { DeliveryTag := m.DeliveryTag, Multiple := m.Multiple,
                  Requeue := false }) }
  | _ => mf

/-- writeFrame: the 7-byte header assembled with the masks and shifts of
the source, the payload, and the frameEnd byte 206. -/
def writeFrame (typ channel : Nat) (payload : List Nat) : List Nat :=
  let size := payload.length
  [typ % 256,
   (channel &&& 0xff00) >>> 8,
   channel &&& 0x00ff,
   (size &&& 0xff000000) >>> 24,
   (size &&& 0x00ff0000) >>> 16,
   (size &&& 0x0000ff00) >>> 8,
   size &&& 0x000000ff] ++ payload ++ [206]

/-- methodFrame.write: fails on a nil Method; otherwise serializes the
class id and method id taken from Method.id() followed by the field-level
payload, and frames the result with writeFrame. -/
def methodFrame.writeBytes (f : methodFrame) : Except String (List Nat) :=
  match f.Method with
  | none => .error "malformed frame: missing method"
  | some m =>
    let cls := (message.id m).1
    let mth := (message.id m).2
    .ok (writeFrame 1 f.ChannelId (u16be cls ++ u16be mth ++ m.writeBytes))

/-- Application of the optional Replacer, as in the pipe bodies: the chunk
is replaced by the transformed output when a Replacer is configured and is
kept as is otherwise.  The Matcher is invoked for side effects only and
never changes the chunk, so it has no state to model. -/
def applyReplacer (r : Option (List Nat → List Nat)) (b : List Nat) : List Nat :=
  match r with
  | some f => f b
  | none => b

/-- Observable per-direction state of Proxy.pipe: the byte counter for
this direction (sentBytes or receivedBytes), the bytes written to dst and
the bytes written to the optional mirror. -/
structure PipeState where
  counter : Nat
  out : List Nat
  mirrorOut : List Nat
deriving DecidableEq

/-- One iteration of Proxy.pipe on a successfully read chunk: b is the
chunk after Matcher and Replacer; dst.Write(b) succeeds returning len(b)
into the same variable n that held the read count, the mirror (when
configured) receives the same bytes best-effort, and the counter is
increased by that reassigned n, that is by the number of bytes written. -/
def pipeStep (replacer : Option (List Nat → List Nat)) (hasMirror : Bool)
    (st : PipeState) (chunk : List Nat) : PipeState :=
  let b := applyReplacer replacer chunk
  let n := b.length
  { counter := st.counter + n,
    out := st.out ++ b,
    mirrorOut := if hasMirror then st.mirrorOut ++ b else st.mirrorOut }

/-- A whole error-free session direction: the relay loop folded over the
successively read chunks, starting from zeroed counters. -/
def pipeRun (replacer : Option (List Nat → List Nat)) (hasMirror : Bool)
    (chunks : List (List Nat)) : PipeState :=
  chunks.foldl (pipeStep replacer hasMirror) ⟨0, [], []⟩

/-- Outcome of one iteration of AMQPProxy.pipe: either the loop continues
after writing some bytes and adding counterInc to the direction counter,
or the goroutine returns after signaling the failure latch through
p.err, or it returns silently with only a warning logged and the latch
not signaled. -/
inductive IterOutcome where
  | continueLoop : List Nat → Nat → IterOutcome
  | exitLatch : IterOutcome
  | exitSilent : IterOutcome
deriving DecidableEq

/-- One iteration of AMQPProxy.pipe.  buff is the content of the whole
65535-byte buffer after src.Read placed n fresh bytes at its front
(positions at or beyond n keep whatever earlier iterations left there);
readFails and dstWriteFails say whether the read and the single dst write
of this iteration error.  Faithful to the source: the chunk b is
buff[:n] pushed through Matcher and Replacer, but the frame reader is
handed bytes.NewReader(buff), the entire buffer, and when it yields a
frame the rewritten re-encoding is written to dst, a write error there
only logs a warning before returning, and on success the counter grows by
the read count n; only when decoding fails is b itself written, a write
error there reaches p.err, and the counter grows by the write count. -/
def amqpPipeIter (replacer : Option (List Nat → List Nat))
    (buff : List Nat) (n : Nat) (readFails dstWriteFails : Bool) : IterOutcome :=
  if readFails then .exitLatch
  else
    let b := applyReplacer replacer (buff.take n)
    match (ReadFrameR buff).1 with
    | .ok mf =>
      match (UpdateMethodAckToNack mf).writeBytes with
      | .ok reEncoded =>
        if dstWriteFails then .exitSilent else .continueLoop reEncoded n
      | .error _ => .exitSilent
    | .error _ =>
      if dstWriteFails then .exitLatch else .continueLoop b b.length

/-- Program counter of one relay goroutine inside Proxy.err: about to test
p.erred, about to send on the unbuffered p.errsig channel, about to set
p.erred, finished after sending, or finished having skipped the send
because p.erred was already true. -/
inductive TaskPC where
  | check
  | send
  | setFlag
  | finished
  | skipped
deriving DecidableEq

/-- Shared state of the failure latch: the program counter of each of the
two relay goroutines (indexed by a Bool), the p.erred flag, and how many
receives Start has completed on p.errsig (Start executes exactly one). -/
structure LatchState where
  pc : Bool → TaskPC
  erred : Bool
  recvCount : Nat

/-- Pointwise update of one program counter. -/
def updatePC (p : Bool → TaskPC) (i : Bool) (v : TaskPC) : Bool → TaskPC :=
  fun j => if j = i then v else p j

/-- Interleaving semantics of Proxy.err with both goroutines failing: a
goroutine at check reads p.erred and either proceeds toward the send or
skips out; a send on the unbuffered channel completes only by pairing
with the single receive in Start, which happens at most once; after the
send completes the goroutine sets p.erred.  These are exactly the three
statements of Proxy.err and the one receive of Proxy.Start. -/
inductive LatchStep : LatchState → LatchState → Prop
  | checkGo (s t : LatchState) (i : Bool) :
      s.pc i = .check → s.erred = false →
      t.pc = updatePC s.pc i .send → t.erred = s.erred →
      t.recvCount = s.recvCount → LatchStep s t
  | checkSkip (s t : LatchState) (i : Bool) :
      s.pc i = .check → s.erred = true →
      t.pc = updatePC s.pc i .skipped → t.erred = s.erred →
      t.recvCount = s.recvCount → LatchStep s t
  | sendRecv (s t : LatchState) (i : Bool) :
      s.pc i = .send → s.recvCount = 0 →
      t.pc = updatePC s.pc i .setFlag → t.erred = s.erred →
      t.recvCount = 1 → LatchStep s t
  | setDone (s t : LatchState) (i : Bool) :
      s.pc i = .setFlag →
      t.pc = updatePC s.pc i .finished → t.erred = true →
      t.recvCount = s.recvCount → LatchStep s t

/-- Initial latch state: both goroutines about to run p.err, flag clear,
no receive completed yet. -/
def latchStart : LatchState := ⟨fun _ => .check, false, 0⟩

/-- A latch state is reachable when a finite interleaving of steps leads
to it from the initial state. -/
def latchReachable (s : LatchState) : Prop :=
  Relation.ReflTransGen LatchStep latchStart s

/-- Both goroutines failed; task true has passed the erred check. -/
def latchS1 : LatchState := ⟨fun i => if i then .send else .check, false, 0⟩

/-- Both goroutines have passed the erred check and are both committed to
sending on the unbuffered channel. -/
def latchS2 : LatchState := ⟨fun _ => .send, false, 0⟩

/-- Task true won the race: its send paired with the only receive. -/
def latchS3 : LatchState := ⟨fun i => if i then .setFlag else .send, false, 1⟩

/-- Task true finished after setting erred; task false is still parked in
its send on the unbuffered channel, and no receive will ever come. -/
def latchStuck : LatchState := ⟨fun i => if i then .finished else .send, true, 1⟩

/-- A generic method frame holding a BasicAck, with its on-the-wire field
values as the decoder produces them. -/
def ackFrameOf (ch tag : Nat) (mult : Bool) : methodFrame :=
  ⟨ch, 60, 80, some (.basicAck ⟨tag, mult⟩)⟩

/-- The actual encoding of BasicAck with DeliveryTag 42, Multiple false,
on channel 0: size field 13, total 21 bytes. -/
def ackWire42 : List Nat :=
  [1, 0, 0, 0, 0, 0, 13, 0, 60, 0, 80, 0, 0, 0, 0, 0, 0, 0, 42, 0, 206]

/-- The encoding of the rewritten frame: method id 120, Requeue false. -/
def nackWire42 : List Nat :=
  [1, 0, 0, 0, 0, 0, 13, 0, 60, 0, 120, 0, 0, 0, 0, 0, 0, 0, 42, 0, 206]

/-- The byte sequence the specification scenario displays for
BasicAck with tag 42: 22 bytes with a size field of 9. -/
def specScenarioBytes : List Nat :=
  [1, 0, 0, 0, 0, 0, 0, 9, 0, 60, 0, 80, 0, 0, 0, 0, 0, 0, 0, 42, 0, 206]

/-- A method frame holding a BasicNack, as a round-trip candidate. -/
def nackFrameEx : methodFrame := ⟨0, 60, 120, some (.basicNack ⟨0, false, false⟩)⟩

/-- The encoding of nackFrameEx. -/
def nackWireEx : List Nat :=
  [1, 0, 0, 0, 0, 0, 13, 0, 60, 0, 120, 0, 0, 0, 0, 0, 0, 0, 0, 0, 206]

/-- A Replacer that turns any chunk into three fixed bytes. -/
def growReplacer : List Nat → List Nat := fun _ => [1, 2, 3]

/-- A Replacer that drops every chunk. -/
def dropAllReplacer : List Nat → List Nat := fun _ => []

end GoTcpProxy

deriving instance DecidableEq for Except

namespace GoTcpProxy

/-! Helper lemmas shared by the claim theorems. -/

theorem and_shiftRight_distrib (a b : Nat) :
    ∀ k, (a &&& b) >>> k = (a >>> k) &&& (b >>> k)
  | 0 => rfl
  | k + 1 => by
    rw [Nat.shiftRight_succ, Nat.shiftRight_succ, Nat.shiftRight_succ,
        and_shiftRight_distrib a b k, Nat.and_div_two]

theorem land_255_eq_mod (x : Nat) : x &&& 255 = x % 256 := by
  have h := Nat.and_pow_two_sub_one_eq_mod x 8
  norm_num at h
  exact h

theorem channel_hi_lo (c : Nat) (h : c < 65536) :
    ((c &&& 0xff00) >>> 8) * 256 + (c &&& 0x00ff) = c := by
  have h1 : (c &&& 0xff00) >>> 8 = (c >>> 8) &&& (0xff00 >>> 8) :=
    and_shiftRight_distrib c 0xff00 8
  have h2 : ((0xff00 : Nat) >>> 8) = 255 := by norm_num [Nat.shiftRight_eq_div_pow]
  have h3 : c >>> 8 = c / 256 := by rw [Nat.shiftRight_eq_div_pow]
  simp only [h1, h2, h3, land_255_eq_mod]
  omega

theorem beNat_u64be (n : Nat) (h : n < 2 ^ 64) : beNat (u64be n) = n := by
  simp only [u64be, beNat, List.foldl]
  omega

theorem u64be_beNat (a b c d e f g h : Nat)
    (ha : a < 256) (hb : b < 256) (hc : c < 256) (hd : d < 256)
    (he : e < 256) (hf : f < 256) (hg : g < 256) (hh : h < 256) :
    u64be (beNat [a, b, c, d, e, f, g, h]) = [a, b, c, d, e, f, g, h] := by
  simp only [u64be, beNat, List.foldl, List.cons.injEq, and_true]
  omega

/-- The flags byte of a re-encoded BasicAck equals the decoded one when
only bit 0 is used. -/
theorem ack_flags_byte (fb : Nat) (h : fb < 2) :
    (if decide (0 < fb &&& (1 <<< 0)) = true then 1 <<< 0 else 0) = fb := by
  interval_cases fb <;> decide

/-- The flags byte of a re-encoded BasicNack equals the decoded one when
only bits 0 and 1 are used. -/
theorem nack_flags_byte (fb : Nat) (h : fb < 4) :
    ((if decide (0 < fb &&& (1 <<< 0)) = true then 1 <<< 0 else 0) |||
     (if decide (0 < fb &&& (1 <<< 1)) = true then 1 <<< 1 else 0)) = fb := by
  interval_cases fb <;> decide

/-- io.ReadFull of the 7-byte header from any source holding at least 7
bytes succeeds with those bytes. -/
theorem readN_cons7 (x1 x2 x3 x4 x5 x6 x7 : Nat) (r : List Nat) :
    readN 7 (x1 :: x2 :: x3 :: x4 :: x5 :: x6 :: x7 :: r) =
      (.ok [x1, x2, x3, x4, x5, x6, x7], r) := by
  simp only [readN, List.length_cons]
  rw [if_pos (by omega)]
  rfl

/-- Decoding a method-frame wire image with class 60, method 80, any
channel bytes, any size bytes and trailer 206 yields the BasicAck frame
with the big-endian reassembled fields. -/
theorem readFrame_ack_wire (hi lo z1 z2 z3 z4 t7 t6 t5 t4 t3 t2 t1 t0 bits : Nat) :
    ReadFrameR [1, hi, lo, z1, z2, z3, z4, 0, 60, 0, 80,
                t7, t6, t5, t4, t3, t2, t1, t0, bits, 206] =
      (.ok ⟨hi * 256 + lo, 60, 80,
            some (.basicAck ⟨beNat [t7, t6, t5, t4, t3, t2, t1, t0],
                             decide (0 < bits &&& (1 <<< 0))⟩)⟩, []) := rfl

/-- Counter accumulated by the relay loop with no Replacer: the fold adds
each chunk length to the running counter. -/
theorem pipeRun_foldl_counter (hasMirror : Bool) (chunks : List (List Nat)) :
    ∀ st : PipeState,
      (chunks.foldl (pipeStep none hasMirror) st).counter =
        st.counter + (chunks.map List.length).sum := by
  induction chunks with
  | nil => intro st; simp
  | cons c cs ih =>
    intro st
    simp only [List.foldl_cons, List.map_cons, List.sum_cons, ih, pipeStep,
      applyReplacer]
    omega

/-! Claim theorems. -/

/-- C1, amended.  The round trip decode(encode(frame)) = frame holds for
every valid BasicAck method frame (channel below 2 to the 16, delivery
tag below 2 to the 64), and the field-level write(read(x)) = x holds for
every valid 9-byte payload of either message variant (8 tag bytes plus a
flags byte using only the defined bits).  The original claim also
asserted the frame-level round trip for BasicNack values; that part is
false because parseMethodFrame recognises only class 60 method 80, see
the counterexample. -/
theorem c1_codec_round_trip :
    (∀ (ch tag : Nat) (mult : Bool), ch < 2 ^ 16 → tag < 2 ^ 64 →
      ∃ w, (ackFrameOf ch tag mult).writeBytes = .ok w ∧
        ReadFrameR w = (.ok (ackFrameOf ch tag mult), [])) ∧
    (∀ t7 t6 t5 t4 t3 t2 t1 t0 fb : Nat,
      t7 < 256 → t6 < 256 → t5 < 256 → t4 < 256 → t3 < 256 → t2 < 256 →
      t1 < 256 → t0 < 256 → fb < 2 →
      ∃ m, BasicAck.readR [t7, t6, t5, t4, t3, t2, t1, t0, fb] = (.ok m, []) ∧
        BasicAck.write m = [t7, t6, t5, t4, t3, t2, t1, t0, fb]) ∧
    (∀ t7 t6 t5 t4 t3 t2 t1 t0 fb : Nat,
      t7 < 256 → t6 < 256 → t5 < 256 → t4 < 256 → t3 < 256 → t2 < 256 →
      t1 < 256 → t0 < 256 → fb < 4 →
      ∃ m, BasicNack.readR [t7, t6, t5, t4, t3, t2, t1, t0, fb] = (.ok m, []) ∧
        BasicNack.write m = [t7, t6, t5, t4, t3, t2, t1, t0, fb]) := by
  refine ⟨?_, ?_, ?_⟩
  · intro ch tag mult hch htag
    refine ⟨[1, (ch &&& 0xff00) >>> 8, ch &&& 0x00ff, 0, 0, 0, 13, 0, 60, 0, 80,
             tag / 2 ^ 56 % 256, tag / 2 ^ 48 % 256, tag / 2 ^ 40 % 256,
             tag / 2 ^ 32 % 256, tag / 2 ^ 24 % 256, tag / 2 ^ 16 % 256,
             tag / 2 ^ 8 % 256, tag % 256, if mult then 1 <<< 0 else 0, 206], ?_, ?_⟩
    · simp only [ackFrameOf, methodFrame.writeBytes, message.id, message.writeBytes,
        BasicAck.write, u64be, u16be, writeFrame, List.append_eq, List.cons_append,
        List.nil_append, List.length_cons, List.length_nil]
      norm_num
      decide
    · rw [readFrame_ack_wire]
      have hch2 : (ch &&& 0xff00) >>> 8 * 256 + (ch &&& 0x00ff) = ch :=
        channel_hi_lo ch (by omega)
      have htag2 : beNat [tag / 2 ^ 56 % 256, tag / 2 ^ 48 % 256, tag / 2 ^ 40 % 256,
          tag / 2 ^ 32 % 256, tag / 2 ^ 24 % 256, tag / 2 ^ 16 % 256,
          tag / 2 ^ 8 % 256, tag % 256] = tag := beNat_u64be tag htag
      have hmult : (decide (0 < (if mult then 1 <<< 0 else 0) &&& (1 <<< 0))) = mult := by
        cases mult <;> rfl
      rw [hch2, htag2, hmult]
      rfl
  · intro t7 t6 t5 t4 t3 t2 t1 t0 fb h7 h6 h5 h4 h3 h2 h1 h0 hfb
    refine ⟨⟨beNat [t7, t6, t5, t4, t3, t2, t1, t0],
             decide (0 < fb &&& (1 <<< 0))⟩, rfl, ?_⟩
    simp only [BasicAck.write]
    rw [u64be_beNat t7 t6 t5 t4 t3 t2 t1 t0 h7 h6 h5 h4 h3 h2 h1 h0]
    simp only [List.cons_append, List.nil_append, List.cons.injEq, true_and]
    exact ⟨ack_flags_byte fb hfb, trivial⟩
  · intro t7 t6 t5 t4 t3 t2 t1 t0 fb h7 h6 h5 h4 h3 h2 h1 h0 hfb
    refine ⟨⟨beNat [t7, t6, t5, t4, t3, t2, t1, t0],
             decide (0 < fb &&& (1 <<< 0)), decide (0 < fb &&& (1 <<< 1))⟩, rfl, ?_⟩
    simp only [BasicNack.write]
    rw [u64be_beNat t7 t6 t5 t4 t3 t2 t1 t0 h7 h6 h5 h4 h3 h2 h1 h0]
    simp only [List.cons_append, List.nil_append, List.cons.injEq, true_and]
    exact ⟨nack_flags_byte fb hfb, trivial⟩

/-- C1, counterexample to the claim as stated: the BasicNack method frame
with tag 0 and both flags clear encodes fine, but decoding that encoding
does not give the frame back; the decoder has no entry for class 60
method 120, so it returns an error. -/
theorem c1_nack_round_trip_fails :
    methodFrame.writeBytes nackFrameEx = .ok nackWireEx ∧
    (ReadFrameR nackWireEx).1 ≠ .ok nackFrameEx ∧
    (ReadFrameR nackWireEx).1.isOk = false :=
  ⟨rfl, by decide, rfl⟩

/-- C1, witness: the amended theorem applied at channel 5, tag 42,
multiple true, and at concrete 9-byte payloads of both variants. -/
theorem c1_codec_round_trip_witness :
    (∃ w, (ackFrameOf 5 42 true).writeBytes = .ok w ∧
      ReadFrameR w = (.ok (ackFrameOf 5 42 true), [])) ∧
    (∃ m, BasicAck.readR [0, 0, 0, 0, 0, 0, 0, 42, 1] = (.ok m, []) ∧
      BasicAck.write m = [0, 0, 0, 0, 0, 0, 0, 42, 1]) ∧
    (∃ m, BasicNack.readR [0, 0, 0, 0, 0, 0, 0, 7, 3] = (.ok m, []) ∧
      BasicNack.write m = [0, 0, 0, 0, 0, 0, 0, 7, 3]) :=
  ⟨c1_codec_round_trip.1 5 42 true (by norm_num) (by norm_num),
   c1_codec_round_trip.2.1 0 0 0 0 0 0 0 42 1 (by norm_num) (by norm_num)
     (by norm_num) (by norm_num) (by norm_num) (by norm_num) (by norm_num)
     (by norm_num) (by norm_num),
   c1_codec_round_trip.2.2 0 0 0 0 0 0 0 7 3 (by norm_num) (by norm_num)
     (by norm_num) (by norm_num) (by norm_num) (by norm_num) (by norm_num)
     (by norm_num) (by norm_num)⟩

/-- C2.  UpdateMethodAckToNack maps every method frame holding a BasicAck
with tag t and multiple m to the same frame with MethodId 120 and a
BasicNack payload with tag t, multiple m and Requeue false, and leaves
every frame that does not hold a BasicAck unchanged. -/
theorem c2_ack_to_nack_rewrite :
    (∀ (mf : methodFrame) (a : BasicAck), mf.Method = some (.basicAck a) →
      UpdateMethodAckToNack mf =
        { mf with MethodId := 120,
                  Method := some (.basicNack ⟨a.DeliveryTag, a.Multiple, false⟩) }) ∧
    (∀ mf : methodFrame, (∀ a : BasicAck, mf.Method ≠ some (.basicAck a)) →
      UpdateMethodAckToNack mf = mf) := by
  constructor
  · intro mf a h
    simp only [UpdateMethodAckToNack, h]
  · intro mf h
    cases hm : mf.Method with
    | none => simp only [UpdateMethodAckToNack, hm]
    | some m =>
      cases m with
      | basicAck a => exact absurd hm (h a)
      | basicNack nk => simp only [UpdateMethodAckToNack, hm]

/-- C2, witness: the rewrite applied to the frame with BasicAck tag 42,
and to a frame holding a BasicNack, which passes through unchanged. -/
theorem c2_ack_to_nack_rewrite_witness :
    UpdateMethodAckToNack (ackFrameOf 0 42 false) =
      { (ackFrameOf 0 42 false) with
        MethodId := 120,
        Method := some (.basicNack ⟨42, false, false⟩) } ∧
    UpdateMethodAckToNack nackFrameEx = nackFrameEx :=
  ⟨c2_ack_to_nack_rewrite.1 (ackFrameOf 0 42 false) ⟨42, false⟩ rfl,
   c2_ack_to_nack_rewrite.2 nackFrameEx (by intro a h; simp [nackFrameEx] at h)⟩

/-- C3, counterexample to the claim as stated: with a Replacer that maps
the one-byte chunk 7 to three bytes, the iteration increments the counter
by 3, the number of bytes written, not by 1, the number of bytes read. -/
theorem c3_counter_not_bytes_read :
    pipeStep (some growReplacer) false ⟨0, [], []⟩ [7] = ⟨3, [1, 2, 3], []⟩ ∧
    ([7] : List Nat).length = 1 ∧ (3 : Nat) ≠ 1 :=
  ⟨rfl, rfl, by decide⟩

/-- C3, amended.  Each relay iteration increments the direction counter
by the length of the post-Replacer chunk, which is the value dst.Write
returns on success, that is by the bytes written rather than the bytes
read; with no Replacer configured the counter after a session equals the
total number of bytes read, so the two notions coincide exactly then. -/
theorem c3_byte_accounting :
    (∀ (repl : Option (List Nat → List Nat)) (hasMirror : Bool)
       (st : PipeState) (chunk : List Nat),
      (pipeStep repl hasMirror st chunk).counter =
        st.counter + (applyReplacer repl chunk).length) ∧
    (∀ (hasMirror : Bool) (chunks : List (List Nat)),
      (pipeRun none hasMirror chunks).counter = (chunks.map List.length).sum) := by
  constructor
  · intro repl hasMirror st chunk
    rfl
  · intro hasMirror chunks
    simp [pipeRun, pipeRun_foldl_counter]

/-- C4, counterexample to the claim as stated: encoding
BasicAck with DeliveryTag 42, Multiple false, on channel 0 produces the
21-byte sequence with size field 0x0D, not the 22-byte sequence with
size field 0x09 displayed in the specification scenario; moreover the
displayed sequence does not even decode, because its extra byte shifts
the class id to 0x0900 = 2304. -/
theorem c4_spec_bytes_do_not_match :
    methodFrame.writeBytes (ackFrameOf 0 42 false) = .ok ackWire42 ∧
    ackWire42 ≠ specScenarioBytes ∧
    (ReadFrameR specScenarioBytes).1.isOk = false :=
  ⟨rfl, by decide, rfl⟩

/-- C4, amended.  Encoding BasicAck with tag 42, multiple false on
channel 0 gives 01 00 00 00 00 00 0D 00 3C 00 50 00 00 00 00 00 00 00 2A
00 CE; decoding that sequence and rewriting yields a frame whose method
id field reads 120, and its re-encoding is the BasicNack wire image whose
final byte is CE. -/
theorem c4_scenario :
    methodFrame.writeBytes (ackFrameOf 0 42 false) = .ok ackWire42 ∧
    ReadFrameR ackWire42 = (.ok (ackFrameOf 0 42 false), []) ∧
    (UpdateMethodAckToNack (ackFrameOf 0 42 false)).MethodId = 120 ∧
    (UpdateMethodAckToNack (ackFrameOf 0 42 false)).writeBytes = .ok nackWire42 ∧
    nackWire42.getLast? = some 206 :=
  ⟨rfl, rfl, rfl, rfl, rfl⟩

/-- C5.  Evaluation of one AMQPProxy.pipe iteration at the failing input:
the buffer holds a well-formed BasicAck frame, the read succeeds and the
destination write fails.  The iteration ends in exitSilent, the path that
only logs a warning and returns, so the failure latch is not signaled and
Start stays blocked, while the raw path with the same write failure does
signal the latch.  The claim, matching the specification, says every
destination write error triggers the latch. -/
theorem c5_frame_path_write_error_skips_latch :
    amqpPipeIter none ackWire42 21 false true = .exitSilent ∧
    IterOutcome.exitSilent ≠ IterOutcome.exitLatch ∧
    amqpPipeIter none [5] 1 false true = .exitLatch ∧
    amqpPipeIter none ackWire42 21 false false = .continueLoop nackWire42 21 :=
  ⟨rfl, by decide, rfl, rfl⟩

/-- C6.  Any wire image shaped as a method frame of class 60, method 80
whose trailer byte is not 206 is rejected by ReadFrame with the
frameEnd error, and whenever decoding the buffer fails, the engine
iteration with no Replacer forwards exactly the n bytes read, unchanged,
to the destination. -/
theorem c6_bad_trailer_rejected_and_forwarded :
    (∀ hi lo z1 z2 z3 z4 t7 t6 t5 t4 t3 t2 t1 t0 fb e : Nat, e ≠ 206 →
      (ReadFrameR [1, hi, lo, z1, z2, z3, z4, 0, 60, 0, 80,
                   t7, t6, t5, t4, t3, t2, t1, t0, fb, e]).1 =
        .error "frameEnd fail") ∧
    (∀ (buff : List Nat) (n : Nat) (msg : String),
      (ReadFrameR buff).1 = .error msg →
      amqpPipeIter none buff n false false =
        .continueLoop (buff.take n) (buff.take n).length) := by
  constructor
  · intro hi lo z1 z2 z3 z4 t7 t6 t5 t4 t3 t2 t1 t0 fb e he
    rw [show ReadFrameR [1, hi, lo, z1, z2, z3, z4, 0, 60, 0, 80,
          t7, t6, t5, t4, t3, t2, t1, t0, fb, e] =
        (if e = 206 then
          (.ok ⟨hi * 256 + lo, 60, 80,
                some (.basicAck ⟨beNat [t7, t6, t5, t4, t3, t2, t1, t0],
                                 decide (0 < fb &&& (1 <<< 0))⟩)⟩, [])
         else (.error "frameEnd fail", [])) from rfl,
        if_neg he]
  · intro buff n msg h
    simp [amqpPipeIter, h, applyReplacer]

/-- C6, witness: the theorem applied to an all-zero ack-shaped wire with
trailer 0, and to the buffer [2] whose decode fails with EOF, in an
iteration that read one byte. -/
theorem c6_bad_trailer_witness :
    (ReadFrameR [1, 0, 0, 0, 0, 0, 0, 0, 60, 0, 80,
                 0, 0, 0, 0, 0, 0, 0, 0, 0, 0]).1 = .error "frameEnd fail" ∧
    amqpPipeIter none [2] 1 false false = .continueLoop [2] 1 :=
  ⟨c6_bad_trailer_rejected_and_forwarded.1 0 0 0 0 0 0 0 0 0 0 0 0 0 0 0 0
     (by decide),
   c6_bad_trailer_rejected_and_forwarded.2 [2] 1 "EOF" rfl⟩

/-- C7.  Evaluation of AMQPProxy.pipe iterations showing what the codec
actually decodes.  With only 1 byte read into a buffer whose remaining 20
bytes are stale from an earlier iteration, the code still decodes the
full stale BasicAck frame and forwards the 21-byte re-encoded BasicNack,
although the 1-byte post-Replacer chunk on its own fails to decode; and
with a Replacer that maps every chunk to the empty list, the codec still
decodes the untransformed buffer.  The claim, following the
specification pipeline order, says the codec decodes exactly the n
post-Replacer bytes of the current iteration. -/
theorem c7_codec_reads_raw_buffer_not_chunk :
    amqpPipeIter none ackWire42 1 false false = .continueLoop nackWire42 1 ∧
    (ReadFrameR (ackWire42.take 1)).1 = .error "EOF" ∧
    amqpPipeIter (some dropAllReplacer) ackWire42 21 false false =
      .continueLoop nackWire42 21 ∧
    (ReadFrameR (applyReplacer (some dropAllReplacer) (ackWire42.take 21))).1 =
      .error "EOF" :=
  ⟨rfl, rfl, rfl, rfl⟩

/-- C8, counterexample to the claim as stated: an interleaving in which
both relay goroutines fail concurrently, both pass the erred check before
either send, task true wins the single receive of Start and finishes, and
the resulting state is reachable, has task false still at its send, and
admits no further step at all: the second signal attempt is blocked
forever on the unbuffered channel.  The claim says neither failing task
blocks forever. -/
theorem c8_second_send_blocks_forever :
    latchReachable latchStuck ∧ latchStuck.pc false = .send ∧
    ∀ t, ¬ LatchStep latchStuck t := by
  refine ⟨?_, rfl, ?_⟩
  · have h1 : LatchStep latchStart latchS1 :=
      .checkGo latchStart latchS1 true rfl rfl
        (by funext j; cases j <;> rfl) rfl rfl
    have h2 : LatchStep latchS1 latchS2 :=
      .checkGo latchS1 latchS2 false rfl rfl
        (by funext j; cases j <;> rfl) rfl rfl
    have h3 : LatchStep latchS2 latchS3 :=
      .sendRecv latchS2 latchS3 true rfl rfl
        (by funext j; cases j <;> rfl) rfl rfl
    have h4 : LatchStep latchS3 latchStuck :=
      .setDone latchS3 latchStuck true rfl
        (by funext j; cases j <;> rfl) rfl rfl
    exact Relation.ReflTransGen.head h1
      (Relation.ReflTransGen.head h2
        (Relation.ReflTransGen.head h3
          (Relation.ReflTransGen.head h4 Relation.ReflTransGen.refl)))
  · intro t h
    cases h with
    | checkGo i h1 h2 h3 h4 h5 => cases i <;> simp [latchStuck] at h1
    | checkSkip i h1 h2 h3 h4 h5 => cases i <;> simp [latchStuck] at h1
    | sendRecv i h1 h2 h3 h4 h5 =>
      cases i
      · simp [latchStuck] at h2
      · simp [latchStuck] at h1
    | setDone i h1 h2 h3 h4 => cases i <;> simp [latchStuck] at h1

/-- C8, amended.  In every reachable interleaving of the two failing
relay goroutines, Start has completed at most one receive, so Start
returns exactly once and its teardown, which closes each owned connection
once through its own defers, runs once; but the erred check is not an
atomic single-fire latch: both tasks can pass it and the losing sender
then blocks forever on the unbuffered channel, as the counterexample
shows. -/
theorem c8_start_receives_at_most_once :
    ∀ s : LatchState, latchReachable s → s.recvCount ≤ 1 := by
  intro s h
  induction h with
  | refl => simp [latchStart]
  | tail hab hbc ih =>
    cases hbc with
    | checkGo i h1 h2 h3 h4 h5 => omega
    | checkSkip i h1 h2 h3 h4 h5 => omega
    | sendRecv i h1 h2 h3 h4 h5 => omega
    | setDone i h1 h2 h3 h4 => omega

/-- C8, witness: the amended theorem applied to the initial state, which
is reachable by the empty interleaving. -/
theorem c8_latch_witness :
    latchReachable latchStart ∧ latchStart.recvCount ≤ 1 :=
  ⟨Relation.ReflTransGen.refl,
   c8_start_receives_at_most_once latchStart Relation.ReflTransGen.refl⟩

/-- C9.  UpdateMethodAckToNack changes at most the MethodId field and the
Method payload: the ChannelId and ClassId fields are untouched, the
result is still a method frame by construction, and whenever the input
frame carries a payload the output payload re-encodes with the same class
id, which is 60 for every message in the catalog. -/
theorem c9_rewrite_preserves_frame_fields :
    ∀ mf : methodFrame,
      (UpdateMethodAckToNack mf).ChannelId = mf.ChannelId ∧
      (UpdateMethodAckToNack mf).ClassId = mf.ClassId ∧
      (∀ m, mf.Method = some m →
        ∃ m2, (UpdateMethodAckToNack mf).Method = some m2 ∧
          (message.id m2).1 = (message.id m).1 ∧ (message.id m2).1 = 60) := by
  intro mf
  cases hm : mf.Method with
  | none =>
    refine ⟨?_, ?_, ?_⟩ <;> simp [UpdateMethodAckToNack, hm]
  | some m =>
    cases m with
    | basicAck a =>
      refine ⟨?_, ?_, ?_⟩
      · simp [UpdateMethodAckToNack, hm]
      · simp [UpdateMethodAckToNack, hm]
      · intro m h
        cases h
        exact ⟨.basicNack ⟨a.DeliveryTag, a.Multiple, false⟩,
               by simp [UpdateMethodAckToNack, hm], rfl, rfl⟩
    | basicNack b =>
      refine ⟨?_, ?_, ?_⟩
      · simp [UpdateMethodAckToNack, hm]
      · simp [UpdateMethodAckToNack, hm]
      · intro m h
        cases h
        exact ⟨.basicNack b, by simp [UpdateMethodAckToNack, hm], rfl, rfl⟩

/-- C9, witness: the theorem applied to the decoded frame with channel 3
and BasicAck tag 9 multiple true, with the payload hypothesis discharged
by rfl. -/
theorem c9_rewrite_preserves_frame_fields_witness :
    (UpdateMethodAckToNack (ackFrameOf 3 9 true)).ChannelId =
      (ackFrameOf 3 9 true).ChannelId ∧
    (UpdateMethodAckToNack (ackFrameOf 3 9 true)).ClassId =
      (ackFrameOf 3 9 true).ClassId ∧
    ∃ m2, (UpdateMethodAckToNack (ackFrameOf 3 9 true)).Method = some m2 ∧
      (message.id m2).1 = (message.id (.basicAck ⟨9, true⟩)).1 ∧
      (message.id m2).1 = 60 := by
  obtain ⟨h1, h2, h3⟩ := c9_rewrite_preserves_frame_fields (ackFrameOf 3 9 true)
  exact ⟨h1, h2, h3 (.basicAck ⟨9, true⟩) rfl⟩

set_option maxRecDepth 4096 in
/-- C10.  ReadFrame never uses the 32-bit size field: two inputs that
agree everywhere except in bytes 3 to 6 produce identical results,
identical unread remainders and hence identical consumption.  Inputs of
at least 7 bytes are covered byte-for-byte; shorter equal-length inputs
all fail with the same EOF before the size bytes matter. -/
theorem c10_size_field_ignored :
    (∀ (p0 p1 p2 a b c d a2 b2 c2 d2 : Nat) (rest : List Nat),
      ReadFrameR (p0 :: p1 :: p2 :: a :: b :: c :: d :: rest) =
      ReadFrameR (p0 :: p1 :: p2 :: a2 :: b2 :: c2 :: d2 :: rest)) ∧
    (∀ l1 l2 : List Nat, l1.length = l2.length → l1.length < 7 →
      ReadFrameR l1 = ReadFrameR l2) := by
  constructor
  · intro p0 p1 p2 a b c d a2 b2 c2 d2 rest
    rcases p0 with _|_|_|_|_|_|_|_|_|p0 <;>
      simp only [ReadFrameR, readN_cons7] <;> rfl
  · intro l1 l2 hlen h7
    have h1 : ¬ 7 ≤ l1.length := by omega
    have h2 : ¬ 7 ≤ l2.length := by omega
    simp [ReadFrameR, readN, h1, h2]

/-- C10, witness: a valid-header frame whose size bytes are all 9 decodes
exactly like the one whose size bytes read 13, and two 5-byte inputs that
differ in bytes 3 and 4 fail identically. -/
theorem c10_size_field_ignored_witness :
    ReadFrameR [1, 0, 0, 9, 9, 9, 9] = ReadFrameR [1, 0, 0, 0, 0, 0, 13] ∧
    ReadFrameR [0, 0, 0, 1, 2] = ReadFrameR [0, 0, 0, 9, 9] :=
  ⟨c10_size_field_ignored.1 1 0 0 9 9 9 9 0 0 0 13 [],
   c10_size_field_ignored.2 [0, 0, 0, 1, 2] [0, 0, 0, 9, 9] rfl (by norm_num)⟩

end GoTcpProxy
